import Mathlib

/-!
Shallow embedding of pipewire-screencast.py.

The program has two components: DesktopPortalManager, which drives the
four-step desktop-portal handshake (CreateSession, SelectSources, Start,
OpenPipeWireRemote) over DBus, and PipewireRecorder, which builds a
GStreamer pipeline per stream descriptor and converts bus messages,
SIGINT and a drain timer into an orderly shutdown.

The handshake is modelled as a pure function from the portal replies to
the trace of observable events of one get_streams run; the recorder is
modelled as a state machine whose methods return the new state together
with a list of semantic effects (pipeline released, loop exited, timer
created, EOS sent to a target, ...).  Library semantics embedded here:
Gst set_state to the state the element is already in performs no
release; GLib MainLoop.quit on a loop that is not running performs no
additional exit; threading.Timer runs its callback once after its delay
unless cancelled first.
-/

namespace PipewireScreencast

/-- A stream descriptor returned by the Start portal call: a PipeWire
node id together with a property mapping. -/
structure StreamDesc where
  nodeId : Nat
  props : List (String × String)
  deriving DecidableEq

/-- The token-correlated portal handshake steps issued over DBus by
DesktopPortalManager. -/
inductive HsStep
  | createSession
  | selectSources
  | start
  deriving DecidableEq

/-- Observable events of one get_streams handshake run: a step being
issued over the bus, the caller-supplied continuation being invoked
(with none as the no-streams sentinel), or a printed status line. -/
inductive HsEvent
  | issued (s : HsStep)
  | callbackInvoked (streams : Option (List StreamDesc))
  | logged (msg : String)
  deriving DecidableEq

/-- The asynchronous replies the portal sends to the three
token-correlated handshake calls: a response code per step, the session
handle yielded by CreateSession, and the streams yielded by Start. -/
structure PortalReplies where
  createSessionResponse : Nat
  sessionHandle : String
  selectSourcesResponse : Nat
  startResponse : Nat
  streams : List StreamDesc
  deriving DecidableEq

/-- DesktopPortalManager._process_streams: the Response handler for the
Start call.  On a non-zero response code it invokes the continuation
with the no-streams sentinel; otherwise it passes the streams on. -/
def _process_streams (r : PortalReplies) : List HsEvent :=
  if r.startResponse ≠ 0 then
    [HsEvent.logged "Did not receive streams from portal.",
     HsEvent.callbackInvoked none]
  else
    [HsEvent.logged "Sources selected",
     HsEvent.callbackInvoked (some r.streams)]

/-- DesktopPortalManager._start_portal: the Response handler for the
SelectSources call.  On a non-zero response code it invokes the
continuation with the no-streams sentinel; otherwise it issues Start. -/
def _start_portal (r : PortalReplies) : List HsEvent :=
  if r.selectSourcesResponse ≠ 0 then
    [HsEvent.logged ("Failed to select sources: " ++ toString r.selectSourcesResponse),
     HsEvent.callbackInvoked none]
  else
    HsEvent.issued HsStep.start :: _process_streams r

/-- DesktopPortalManager._select_sources: the Response handler for the
CreateSession call.  On a non-zero response code it invokes the
continuation with the no-streams sentinel; otherwise it records the
session handle and issues SelectSources. -/
def _select_sources (r : PortalReplies) : List HsEvent :=
  if r.createSessionResponse ≠ 0 then
    [HsEvent.logged ("Failed to create session: " ++ toString r.createSessionResponse),
     HsEvent.callbackInvoked none]
  else
    HsEvent.logged ("session " ++ r.sessionHandle ++ " created") ::
    HsEvent.issued HsStep.selectSources :: _start_portal r

/-- DesktopPortalManager.get_streams: issues CreateSession and lets the
registered callback chain run against the given portal replies. -/
def get_streams (r : PortalReplies) : List HsEvent :=
  HsEvent.issued HsStep.createSession :: _select_sources r

/-- C1: for every handshake run, if any of CreateSession, SelectSources
or Start replies with a non-zero response code, the caller-supplied
continuation is invoked with the no-streams sentinel (none), it is never
invoked with a stream list, and no handshake step later than the failing
one is issued. -/
theorem c1_handshake_early_exit (r : PortalReplies)
    (h : r.createSessionResponse ≠ 0 ∨ r.selectSourcesResponse ≠ 0 ∨ r.startResponse ≠ 0) :
    HsEvent.callbackInvoked none ∈ get_streams r ∧
    (∀ ss : List StreamDesc, HsEvent.callbackInvoked (some ss) ∉ get_streams r) ∧
    (r.createSessionResponse ≠ 0 →
      HsEvent.issued HsStep.selectSources ∉ get_streams r ∧
      HsEvent.issued HsStep.start ∉ get_streams r) ∧
    (r.selectSourcesResponse ≠ 0 → HsEvent.issued HsStep.start ∉ get_streams r) := by
  by_cases h1 : r.createSessionResponse = 0 <;>
    by_cases h2 : r.selectSourcesResponse = 0 <;>
      by_cases h3 : r.startResponse = 0 <;>
        simp [get_streams, _select_sources, _start_portal, _process_streams,
          h1, h2, h3] at h ⊢

/-- Witness for C1 at the concrete reply record where CreateSession
fails with response code 1. -/
theorem c1_handshake_early_exit_witness :
    HsEvent.callbackInvoked none ∈
      get_streams ⟨1, "", 0, 0, []⟩ :=
  (c1_handshake_early_exit ⟨1, "", 0, 0, []⟩ (Or.inl (by decide))).1

/-- DesktopPortalManager._new_request_path: increments the request token
counter and mints the token and the request object path from the new
counter value and the sender name.  Returns the new counter value
together with the token and the path. -/
def _new_request_path (sender : String) (counter : Nat) : Nat × String × String :=
  let c := counter + 1
  (c, "u" ++ toString c,
   "/org/freedesktop/portal/desktop/request/" ++ sender ++ "/u" ++ toString c)

/-- The sequence of (counter value, token, path) triples produced by n
successive calls to _new_request_path, threading the counter exactly as
the mutable field _request_token_counter is threaded. -/
def issueRequests (sender : String) : Nat → Nat → List (Nat × String × String)
  | _, 0 => []
  | counter, Nat.succ n =>
    let r := _new_request_path sender counter
    r :: issueRequests sender r.1 n

/-- Every numeric token value issued after starting from counter is
strictly above counter. -/
theorem issueRequests_lt (sender : String) :
    ∀ (n counter : Nat), ∀ x ∈ (issueRequests sender counter n).map Prod.fst,
      counter < x := by
  intro n
  induction n with
  | zero => intro counter x hx; simp [issueRequests] at hx
  | succ n ih =>
    intro counter x hx
    simp only [issueRequests, _new_request_path, List.map_cons, List.mem_cons] at hx
    rcases hx with hx | hx
    · omega
    · exact Nat.lt_trans (Nat.lt_succ_self counter) (ih (counter + 1) x hx)

/-- The numeric token values issued from any starting counter are
pairwise strictly increasing in issue order. -/
theorem issueRequests_pairwise (sender : String) :
    ∀ (n counter : Nat),
      List.Pairwise (fun a b => a < b) ((issueRequests sender counter n).map Prod.fst) := by
  intro n
  induction n with
  | zero => intro counter; simp [issueRequests]
  | succ n ih =>
    intro counter
    simp only [issueRequests, _new_request_path, List.map_cons]
    exact List.Pairwise.cons (fun x hx => issueRequests_lt sender n (counter + 1) x hx)
      (ih (counter + 1))

/-- C7: over every sequence of request-path allocations within one
process lifetime (the counter starts at 0 in the constructor), the
numeric RequestToken values issued by _new_request_path are strictly
increasing in issue order, and no token value is ever issued twice. -/
theorem c7_request_tokens_strictly_increasing (sender : String) (n : Nat) :
    List.Pairwise (fun a b => a < b) ((issueRequests sender 0 n).map Prod.fst) ∧
    ((issueRequests sender 0 n).map Prod.fst).Nodup :=
  ⟨issueRequests_pairwise sender n 0,
   (issueRequests_pairwise sender n 0).imp (fun h => Nat.ne_of_lt h)⟩

/-- GStreamer pipeline states relevant to the recorder: the pipeline is
set to playing right after construction and to null on termination. -/
inductive GstState
  | null
  | playing
  deriving DecidableEq

/-- A constructed GStreamer pipeline: the transport file descriptor and
PipeWire node id baked into the parse_launch description, and the
current element state. -/
structure Pipeline where
  fd : Nat
  nodeId : Nat
  st : GstState
  deriving DecidableEq

/-- The threading.Timer stored in _delayed_terminate: its delay in
seconds and whether cancel() has been called on it. -/
structure DrainTimer where
  delay : ℚ
  cancelled : Bool
  deriving DecidableEq

/-- The mutable state of one PipewireRecorder: the _pipeline field, the
_delayed_terminate timer field, whether the GLib main loop is running,
and the supply counter for fresh transport file descriptors handed out
by OpenPipeWireRemote. -/
structure RecState where
  pipeline : Option Pipeline
  delayedTerminate : Option DrainTimer
  loopRunning : Bool
  nextFd : Nat
  deriving DecidableEq

/-- Where a synthetic end-of-stream event is injected. -/
inductive EosTarget
  | element (name : String)
  | wholePipeline
  deriving DecidableEq

/-- Semantic effects of recorder operations.  pipelineReleased is
emitted only when set_state moves the pipeline out of a non-null state
into null; loopExited only when quit() stops a loop that was running:
repeating either call is a no-op in the underlying libraries. -/
inductive Effect
  | pipelineReleased
  | loopExited
  | timerCreated (delay : ℚ)
  | timerCancelled
  | sendEos (target : EosTarget)
  | openPipeWireRemote
  | pipelineConstructed (fd : Nat) (nodeId : Nat)
  | logged (msg : String)
  deriving DecidableEq

/-- Number of pipeline releases in an effect list. -/
def releases (es : List Effect) : Nat :=
  (es.filter (fun e => e = Effect.pipelineReleased)).length

/-- Number of effective run-loop exits in an effect list. -/
def loopExits (es : List Effect) : Nat :=
  (es.filter (fun e => e = Effect.loopExited)).length

/-- Whether an effect is the creation of a drain timer. -/
def isTimerCreated : Effect → Bool
  | Effect.timerCreated _ => true
  | _ => false

/-- Number of drain timers created in an effect list. -/
def timerCreations (es : List Effect) : Nat :=
  (es.filter isTimerCreated).length

/-- Whether an effect is an OpenPipeWireRemote exchange. -/
def isOpenPipeWireRemote : Effect → Bool
  | Effect.openPipeWireRemote => true
  | _ => false

/-- Number of OpenPipeWireRemote exchanges in an effect list. -/
def fdRequests (es : List Effect) : Nat :=
  (es.filter isOpenPipeWireRemote).length

/-- The node ids of the pipelines constructed in an effect list, in
construction order. -/
def constructedNodeIds (es : List Effect) : List Nat :=
  es.filterMap fun e =>
    match e with
    | Effect.pipelineConstructed _ n => some n
    | _ => none

/-- PipewireRecorder.terminate: sets the pipeline to null when one
exists, quits the run loop, and cancels the drain timer when one
exists.  A release is effective only if the pipeline was not already
null, and a loop exit only if the loop was still running. -/
def terminate (s : RecState) : RecState × List Effect :=
  let pe : Option Pipeline × List Effect :=
    match s.pipeline with
    | none => (none, [])
    | some p =>
      (some { p with st := GstState.null },
       if p.st = GstState.null then [] else [Effect.pipelineReleased])
  let qe : List Effect := if s.loopRunning then [Effect.loopExited] else []
  let te : Option DrainTimer × List Effect :=
    match s.delayedTerminate with
    | none => (none, [])
    | some t => (some { t with cancelled := true }, [Effect.timerCancelled])
  ({ pipeline := pe.1, delayedTerminate := te.1, loopRunning := false,
     nextFd := s.nextFd },
   pe.2 ++ qe ++ te.2)

/-- The default delay argument of PipewireRecorder.delayed_terminate:
1.0 seconds, the one drain-timeout time unit. -/
def drainDefaultDelay : ℚ := 1

/-- PipewireRecorder.delayed_terminate: when no drain timer exists yet,
creates and starts a Timer running terminate after the given delay;
when the _delayed_terminate field is already set (even to a cancelled
timer), does nothing. -/
def delayed_terminate (s : RecState) (delay : ℚ) : RecState × List Effect :=
  match s.delayedTerminate with
  | some _ => (s, [])
  | none =>
    ({ s with delayedTerminate := some { delay := delay, cancelled := false } },
     [Effect.timerCreated delay])

/-- A call of delayed_terminate with its default argument (every call
site in the program uses the default). -/
def delayed_terminate_default (s : RecState) : RecState × List Effect :=
  delayed_terminate s drainDefaultDelay

/-- PipewireRecorder.softexit, the SIGINT handler: with a live pipeline
it sends EOS to the pipeline as a whole and arms the drain timer; with
no pipeline it just quits the run loop. -/
def softexit (s : RecState) : RecState × List Effect :=
  match s.pipeline with
  | some _ =>
    let r := delayed_terminate_default s
    (r.1,
     Effect.logged "Caught SIGINT, trying to exit gracefully." ::
     Effect.sendEos EosTarget.wholePipeline :: r.2)
  | none =>
    ({ s with loopRunning := false },
     if s.loopRunning then [Effect.loopExited] else [])

/-- The kind of a GStreamer bus message as dispatched by the callback:
end-of-stream, error, or anything else (ignored). -/
inductive MessageType
  | eos
  | error
  | other
  deriving DecidableEq

/-- A GStreamer bus message: its type, whether its parsed error matches
the resource-error quark, the name of the emitting element and the
error text. -/
structure GstMessage where
  mtype : MessageType
  isResourceError : Bool
  srcName : String
  errMessage : String
  deriving DecidableEq

/-- PipewireRecorder._gst_message_callback: EOS terminates; an error in
the resource class arms the drain timer and injects EOS into the
element obtained by get_by_name "sink"; any other error is only
logged; other message types are ignored. -/
def _gst_message_callback (s : RecState) (m : GstMessage) : RecState × List Effect :=
  match m.mtype with
  | MessageType.eos => terminate s
  | MessageType.error =>
    if m.isResourceError then
      let r := delayed_terminate_default s
      (r.1,
       Effect.logged "Stream ended, trying to quit gracefully." ::
       r.2 ++ [Effect.sendEos (EosTarget.element "sink")])
    else
      (s, [Effect.logged ("Error: " ++ m.srcName ++ " " ++ m.errMessage)])
  | MessageType.other => (s, [])

/-- The bus message carrying Gst.MessageType.EOS. -/
def eosMessage : GstMessage :=
  { mtype := MessageType.eos, isResourceError := false, srcName := "", errMessage := "" }

/-- Delivery of the EOS bus message to the recorder. -/
def on_bus_eos (s : RecState) : RecState × List Effect :=
  _gst_message_callback s eosMessage

/-- Firing of the drain timer thread: threading.Timer runs terminate
once after its delay unless cancel() happened first. -/
def on_timer_fire (s : RecState) : RecState × List Effect :=
  match s.delayedTerminate with
  | none => (s, [])
  | some t => if t.cancelled then (s, []) else terminate s

/-- Absolute time at which a drain timer armed at armTime will run its
callback, none if it was cancelled. -/
def timerFireTime (armTime : ℚ) (t : DrainTimer) : Option ℚ :=
  if t.cancelled then none else some (armTime + t.delay)

/-- DesktopPortalManager.get_pipewire_fd: performs the synchronous
OpenPipeWireRemote exchange and takes a fresh transport file
descriptor out of it. -/
def get_pipewire_fd (s : RecState) : Nat × RecState × List Effect :=
  (s.nextFd, { s with nextFd := s.nextFd + 1 }, [Effect.openPipeWireRemote])

/-- PipewireRecorder._record: obtains a transport fd via
get_pipewire_fd, constructs a pipeline from the parse_launch
description parameterized by that fd and the given node id (the fixed
encoder settings and output location are the same for every call), and
sets it playing.  The _pipeline field is overwritten. -/
def _record (s : RecState) (nodeId : Nat) : RecState × List Effect :=
  let r := get_pipewire_fd s
  let fd := r.1
  let s1 := r.2.1
  ({ s1 with pipeline := some { fd := fd, nodeId := nodeId, st := GstState.playing } },
   r.2.2 ++ [Effect.pipelineConstructed fd nodeId])

/-- The for loop of get_streams_callback: one _record call per stream
descriptor, in order. -/
def record_streams (s : RecState) : List StreamDesc → RecState × List Effect
  | [] => (s, [])
  | sd :: rest =>
    let r1 := _record s sd.nodeId
    let r2 := record_streams r1.1 rest
    (r2.1, Effect.logged ("Stream " ++ toString sd.nodeId) :: r1.2 ++ r2.2)

/-- The get_streams_callback closure inside PipewireRecorder.record:
the no-streams sentinel terminates; otherwise each descriptor is
recorded sequentially. -/
def get_streams_callback (s : RecState) : Option (List StreamDesc) → RecState × List Effect
  | none => terminate s
  | some streams => record_streams s streams

/-- The external events driving one recorder over its lifetime. -/
inductive RecEvent
  | busMessage (m : GstMessage)
  | sigint
  | timerFired
  | streamsArrived (streams : Option (List StreamDesc))

/-- Dispatch of one external event to the recorder handler the program
installs for it. -/
def step (s : RecState) : RecEvent → RecState × List Effect
  | RecEvent.busMessage m => _gst_message_callback s m
  | RecEvent.sigint => softexit s
  | RecEvent.timerFired => on_timer_fire s
  | RecEvent.streamsArrived streams => get_streams_callback s streams

/-- A whole recorder lifetime: the effects of a sequence of external
events, in order. -/
def run (s : RecState) : List RecEvent → RecState × List Effect
  | [] => (s, [])
  | ev :: evs =>
    let r1 := step s ev
    let r2 := run r1.1 evs
    (r2.1, r1.2 ++ r2.2)

/-- C2: with a live pipeline and a running loop, invoking the
termination action twice — directly, bus-then-timer, or
timer-then-bus — releases the pipeline exactly once and exits the run
loop exactly once; the second invocation performs no additional
release and no additional quit. -/
theorem c2_termination_idempotent (s : RecState) (p : Pipeline)
    (hp : s.pipeline = some p) (hst : p.st = GstState.playing)
    (hl : s.loopRunning = true) :
    releases (terminate s).2 = 1 ∧ loopExits (terminate s).2 = 1 ∧
    releases (terminate (terminate s).1).2 = 0 ∧
    loopExits (terminate (terminate s).1).2 = 0 ∧
    releases ((on_bus_eos s).2 ++ (on_timer_fire (on_bus_eos s).1).2) = 1 ∧
    loopExits ((on_bus_eos s).2 ++ (on_timer_fire (on_bus_eos s).1).2) = 1 ∧
    releases ((on_timer_fire s).2 ++ (on_bus_eos (on_timer_fire s).1).2) = 1 ∧
    loopExits ((on_timer_fire s).2 ++ (on_bus_eos (on_timer_fire s).1).2) = 1 := by
  rcases s with ⟨pl, dt, lr, fd⟩
  rcases p with ⟨pfd, pnode, pst⟩
  simp only at hp hl
  subst hp hl
  simp only at hst
  subst hst
  rcases dt with _ | ⟨d, c⟩
  · simp [terminate, on_bus_eos, on_timer_fire, _gst_message_callback, eosMessage,
      releases, loopExits, List.filter]
  · rcases c with _ | _ <;>
      simp [terminate, on_bus_eos, on_timer_fire, _gst_message_callback, eosMessage,
        releases, loopExits, List.filter]

/-- Witness for C2 at a concrete playing recorder state. -/
theorem c2_termination_idempotent_witness :
    releases (terminate ⟨some ⟨3, 42, GstState.playing⟩, none, true, 4⟩).2 = 1 :=
  (c2_termination_idempotent ⟨some ⟨3, 42, GstState.playing⟩, none, true, 4⟩
    ⟨3, 42, GstState.playing⟩ rfl rfl rfl).1

/-- Counterexample to C3 as stated: at a concrete recorder state with a
live pipeline, the interrupt-signal handler softexit sends the
synthetic EOS to the pipeline as a whole, and not to the sink element
addressed by name. -/
theorem c3_counterexample :
    Effect.sendEos EosTarget.wholePipeline ∈
      (softexit ⟨some ⟨3, 42, GstState.playing⟩, none, true, 4⟩).2 ∧
    Effect.sendEos (EosTarget.element "sink") ∉
      (softexit ⟨some ⟨3, 42, GstState.playing⟩, none, true, 4⟩).2 := by
  simp [softexit, delayed_terminate_default, delayed_terminate, drainDefaultDelay]

/-- C3 amended: a resource-class pipeline error injects the synthetic
EOS into the sink element addressed by name and arms the drain timer,
while the interrupt signal with a live pipeline sends the EOS to the
pipeline as a whole (not to the sink by name) and arms the drain
timer. -/
theorem c3_eos_injection_targets (s : RecState) (p : Pipeline) (m : GstMessage)
    (hp : s.pipeline = some p) (ht : s.delayedTerminate = none)
    (hm : m.mtype = MessageType.error) (hr : m.isResourceError = true) :
    (Effect.sendEos (EosTarget.element "sink") ∈ (_gst_message_callback s m).2 ∧
     Effect.sendEos EosTarget.wholePipeline ∉ (_gst_message_callback s m).2 ∧
     Effect.timerCreated drainDefaultDelay ∈ (_gst_message_callback s m).2) ∧
    (Effect.sendEos EosTarget.wholePipeline ∈ (softexit s).2 ∧
     Effect.sendEos (EosTarget.element "sink") ∉ (softexit s).2 ∧
     Effect.timerCreated drainDefaultDelay ∈ (softexit s).2) := by
  simp [_gst_message_callback, softexit, delayed_terminate_default, delayed_terminate,
    hp, ht, hm, hr]

/-- Witness for the amended C3 at a concrete state and message. -/
theorem c3_eos_injection_targets_witness :
    Effect.sendEos (EosTarget.element "sink") ∈
      (_gst_message_callback ⟨some ⟨3, 42, GstState.playing⟩, none, true, 4⟩
        ⟨MessageType.error, true, "pipewiresrc0", "vanished"⟩).2 :=
  (c3_eos_injection_targets ⟨some ⟨3, 42, GstState.playing⟩, none, true, 4⟩
    ⟨3, 42, GstState.playing⟩ ⟨MessageType.error, true, "pipewiresrc0", "vanished"⟩
    rfl rfl rfl rfl).1.1

/-- C8: a pipeline bus error message whose error is not in the resource
class is only logged: the recorder state (pipeline, drain timer, run
loop) is left unchanged and the only effect is the log line, so no
teardown is initiated by that message. -/
theorem c8_other_errors_only_logged (s : RecState) (m : GstMessage)
    (hm : m.mtype = MessageType.error) (hr : m.isResourceError = false) :
    (_gst_message_callback s m).1 = s ∧
    (_gst_message_callback s m).2 =
      [Effect.logged ("Error: " ++ m.srcName ++ " " ++ m.errMessage)] := by
  simp [_gst_message_callback, hm, hr]

/-- Witness for C8 at a concrete state and non-resource error
message. -/
theorem c8_other_errors_only_logged_witness :
    (_gst_message_callback ⟨some ⟨3, 42, GstState.playing⟩, none, true, 4⟩
      ⟨MessageType.error, false, "x264enc0", "encode failed"⟩).1 =
      ⟨some ⟨3, 42, GstState.playing⟩, none, true, 4⟩ :=
  (c8_other_errors_only_logged ⟨some ⟨3, 42, GstState.playing⟩, none, true, 4⟩
    ⟨MessageType.error, false, "x264enc0", "encode failed"⟩ rfl rfl).1

/-- C9: if the interrupt signal is delivered while no pipeline exists,
softexit quits the run loop immediately, sends no end-of-stream event,
creates no drain timer, and leaves the timer field unchanged. -/
theorem c9_sigint_without_pipeline (s : RecState) (hp : s.pipeline = none) :
    (softexit s).1.loopRunning = false ∧
    (softexit s).1.delayedTerminate = s.delayedTerminate ∧
    (softexit s).1.pipeline = none ∧
    (∀ tgt : EosTarget, Effect.sendEos tgt ∉ (softexit s).2) ∧
    timerCreations (softexit s).2 = 0 ∧
    (s.loopRunning = true → (softexit s).2 = [Effect.loopExited]) := by
  by_cases hl : s.loopRunning <;>
    simp [softexit, hp, hl, timerCreations, isTimerCreated, List.filter]

/-- Witness for C9 at a concrete pipelineless state. -/
theorem c9_sigint_without_pipeline_witness :
    (softexit ⟨none, none, true, 0⟩).1.loopRunning = false :=
  (c9_sigint_without_pipeline ⟨none, none, true, 0⟩ rfl).1

/-- The node ids of the pipelines constructed by the recording loop are
exactly the node ids of the stream descriptors, in order. -/
theorem record_streams_nodeIds (streams : List StreamDesc) :
    ∀ s : RecState,
      constructedNodeIds (record_streams s streams).2 =
        streams.map (fun sd => sd.nodeId) := by
  induction streams with
  | nil => intro s; simp [record_streams, constructedNodeIds]
  | cons sd rest ih =>
    intro s
    simp [record_streams, _record, get_pipewire_fd, constructedNodeIds,
      List.filterMap_append] at ih ⊢
    exact ih _

/-- C5: for every successful Start reply carrying a list of stream
descriptors, the recording callback constructs exactly one pipeline per
descriptor, parameterized by that descriptor's node id, in order. -/
theorem c5_one_pipeline_per_descriptor (s : RecState) (streams : List StreamDesc) :
    constructedNodeIds (get_streams_callback s (some streams)).2 =
      streams.map (fun sd => sd.nodeId) ∧
    (constructedNodeIds (get_streams_callback s (some streams)).2).length =
      streams.length := by
  refine ⟨record_streams_nodeIds streams s, ?_⟩
  rw [show (get_streams_callback s (some streams)).2 = (record_streams s streams).2 from rfl,
    record_streams_nodeIds streams s]
  simp

/-- Counterexample to C4 as stated: on a successful Start reply with
two stream descriptors, the OpenPipeWireRemote exchange is performed
twice, not exactly once. -/
theorem c4_counterexample :
    fdRequests (get_streams_callback ⟨none, none, true, 0⟩
      (some [⟨1, []⟩, ⟨2, []⟩])).2 ≠ 1 := by
  simp [get_streams_callback, record_streams, _record, get_pipewire_fd,
    fdRequests, isOpenPipeWireRemote, List.filter]

/-- The recording loop performs one OpenPipeWireRemote exchange per
stream descriptor. -/
theorem record_streams_fdRequests (streams : List StreamDesc) :
    ∀ s : RecState, fdRequests (record_streams s streams).2 = streams.length := by
  induction streams with
  | nil => intro s; simp [record_streams, fdRequests]
  | cons sd rest ih =>
    intro s
    simp [record_streams, _record, get_pipewire_fd, fdRequests, isOpenPipeWireRemote,
      List.filter_append] at ih ⊢
    exact ih _

/-- C4 amended: the OpenPipeWireRemote exchange of the session for a
transport file descriptor is performed once per constructed pipeline,
hence N times for a Start reply with N stream descriptors, and exactly
once in the single-stream case the handshake requests. -/
theorem c4_fd_exchange_per_pipeline (s : RecState) (streams : List StreamDesc) :
    fdRequests (get_streams_callback s (some streams)).2 = streams.length :=
  record_streams_fdRequests streams s

/-- C6: every entry into DRAINING — via a resource-class error on a
playing pipeline or via the interrupt signal — arms a drain timer with
the default delay of 1 time unit; if no EOS is observed before the
timer fires at arm time plus the delay, the firing runs terminate
anyway, leaving the pipeline released and the loop exited (STOPPED),
and the firing time is below the timeout plus any positive epsilon. -/
theorem c6_drain_timeout_bounds_shutdown (s : RecState) (p : Pipeline)
    (m : GstMessage) (t0 : ℚ)
    (hp : s.pipeline = some p) (hst : p.st = GstState.playing)
    (ht : s.delayedTerminate = none) (hl : s.loopRunning = true)
    (hm : m.mtype = MessageType.error) (hr : m.isResourceError = true) :
    (_gst_message_callback s m).1.delayedTerminate = some ⟨drainDefaultDelay, false⟩ ∧
    (softexit s).1.delayedTerminate = some ⟨drainDefaultDelay, false⟩ ∧
    drainDefaultDelay = 1 ∧
    timerFireTime t0 ⟨drainDefaultDelay, false⟩ = some (t0 + drainDefaultDelay) ∧
    ((on_timer_fire (_gst_message_callback s m).1).1.loopRunning = false ∧
      (on_timer_fire (_gst_message_callback s m).1).1.pipeline =
        some ⟨p.fd, p.nodeId, GstState.null⟩) ∧
    ((on_timer_fire (softexit s).1).1.loopRunning = false ∧
      (on_timer_fire (softexit s).1).1.pipeline =
        some ⟨p.fd, p.nodeId, GstState.null⟩) ∧
    (∀ ε : ℚ, 0 < ε → t0 + drainDefaultDelay < t0 + drainDefaultDelay + ε) := by
  rcases s with ⟨pl, dt, lr, fd⟩
  simp only at hp ht hl
  subst hp ht hl
  refine ⟨?_, ?_, rfl, ?_, ?_, ?_, ?_⟩
  · simp [_gst_message_callback, delayed_terminate_default, delayed_terminate, hm, hr]
  · simp [softexit, delayed_terminate_default, delayed_terminate]
  · simp [timerFireTime]
  · simp [_gst_message_callback, delayed_terminate_default, delayed_terminate,
      on_timer_fire, terminate, hm, hr]
  · simp [softexit, delayed_terminate_default, delayed_terminate,
      on_timer_fire, terminate]
  · intro ε hε; linarith

/-- Witness for C6 at a concrete playing state, resource-error message
and arm time 0. -/
theorem c6_drain_timeout_bounds_shutdown_witness :
    (_gst_message_callback ⟨some ⟨3, 42, GstState.playing⟩, none, true, 4⟩
        ⟨MessageType.error, true, "pipewiresrc0", "vanished"⟩).1.delayedTerminate =
      some ⟨drainDefaultDelay, false⟩ :=
  (c6_drain_timeout_bounds_shutdown ⟨some ⟨3, 42, GstState.playing⟩, none, true, 4⟩
    ⟨3, 42, GstState.playing⟩ ⟨MessageType.error, true, "pipewiresrc0", "vanished"⟩
    0 rfl rfl rfl rfl rfl rfl).1

/-- terminate never creates a drain timer and never clears or sets the
_delayed_terminate field: it only flips the cancelled flag. -/
theorem terminate_timer (s : RecState) :
    (terminate s).1.delayedTerminate.isSome = s.delayedTerminate.isSome ∧
    timerCreations (terminate s).2 = 0 := by
  rcases s with ⟨pl, dt, lr, fd⟩
  rcases pl with _ | ⟨pfd, pnode, pst⟩ <;> rcases dt with _ | ⟨d, c⟩ <;>
    rcases lr with _ | _ <;>
      simp [terminate, timerCreations, isTimerCreated, List.filter]

/-- The recording loop never touches the _delayed_terminate field and
never creates a drain timer. -/
theorem record_streams_timer (streams : List StreamDesc) :
    ∀ s : RecState,
      (record_streams s streams).1.delayedTerminate = s.delayedTerminate ∧
      timerCreations (record_streams s streams).2 = 0 := by
  induction streams with
  | nil => intro s; simp [record_streams, timerCreations]
  | cons sd rest ih =>
    intro s
    simp [record_streams, _record, get_pipewire_fd, timerCreations, isTimerCreated,
      List.filter_append, List.filter] at ih ⊢
    exact ih _

/-- terminate keeps an empty _delayed_terminate field empty. -/
theorem terminate_timer_none (s : RecState) (h : s.delayedTerminate = none) :
    (terminate s).1.delayedTerminate = none := by
  have h1 := (terminate_timer s).1
  rw [h] at h1
  simp only [Option.isSome_none] at h1
  exact Option.not_isSome_iff_eq_none.mp (by simp [h1])

/-- One dispatched event either creates no drain timer and leaves the
presence of the _delayed_terminate field as it was, or creates exactly
one timer, which only happens when the field was empty and leaves it
occupied. -/
theorem step_timer (s : RecState) (ev : RecEvent) :
    (s.delayedTerminate.isSome = true →
      (step s ev).1.delayedTerminate.isSome = true ∧
      timerCreations (step s ev).2 = 0) ∧
    (s.delayedTerminate = none →
      (timerCreations (step s ev).2 = 0 ∧ (step s ev).1.delayedTerminate = none) ∨
      (timerCreations (step s ev).2 = 1 ∧
        (step s ev).1.delayedTerminate.isSome = true)) := by
  rcases ev with m | _ | _ | streams
  · rcases m with ⟨mt, ire, sn, em⟩
    rcases mt with _ | _ | _
    · exact ⟨fun h => ⟨((terminate_timer s).1).trans h, (terminate_timer s).2⟩,
        fun h => Or.inl ⟨(terminate_timer s).2, terminate_timer_none s h⟩⟩
    · rcases ire with _ | _
      · simp [step, _gst_message_callback, timerCreations, isTimerCreated, List.filter]
      · constructor
        · intro h
          rcases hdt : s.delayedTerminate with _ | t
          · rw [hdt] at h; simp at h
          · simp [step, _gst_message_callback, delayed_terminate_default,
              delayed_terminate, hdt, timerCreations, isTimerCreated, List.filter]
        · intro h
          right
          simp [step, _gst_message_callback, delayed_terminate_default,
            delayed_terminate, h, timerCreations, isTimerCreated, List.filter]
    · simp [step, _gst_message_callback, timerCreations]
  · rcases hpl : s.pipeline with _ | p
    · constructor
      · intro h
        by_cases hl : s.loopRunning <;>
          simp [step, softexit, hpl, hl, h, timerCreations, isTimerCreated, List.filter]
      · intro h
        left
        by_cases hl : s.loopRunning <;>
          simp [step, softexit, hpl, hl, h, timerCreations, isTimerCreated, List.filter]
    · constructor
      · intro h
        rcases hdt : s.delayedTerminate with _ | t
        · rw [hdt] at h; simp at h
        · simp [step, softexit, delayed_terminate_default, delayed_terminate,
            hpl, hdt, timerCreations, isTimerCreated, List.filter]
      · intro h
        right
        simp [step, softexit, delayed_terminate_default, delayed_terminate,
          hpl, h, timerCreations, isTimerCreated, List.filter]
  · rcases hdt : s.delayedTerminate with _ | t
    · simp [step, on_timer_fire, hdt, timerCreations]
    · rcases hc : t.cancelled with _ | _
      · constructor
        · intro _
          have h1 := (terminate_timer s).1
          rw [hdt] at h1
          refine ⟨?_, ?_⟩
          · simpa [step, on_timer_fire, hdt, hc] using h1
          · simpa [step, on_timer_fire, hdt, hc] using (terminate_timer s).2
        · intro h
          exact Option.noConfusion h
      · simp [step, on_timer_fire, hdt, hc, timerCreations]
  · rcases streams with _ | streams
    · exact ⟨fun h => ⟨((terminate_timer s).1).trans h, (terminate_timer s).2⟩,
        fun h => Or.inl ⟨(terminate_timer s).2, terminate_timer_none s h⟩⟩
    · constructor
      · intro h
        refine ⟨?_, (record_streams_timer streams s).2⟩
        have := (record_streams_timer streams s).1
        simp only [step, get_streams_callback]
        rw [this, h]
      · intro h
        left
        refine ⟨(record_streams_timer streams s).2, ?_⟩
        have := (record_streams_timer streams s).1
        simp only [step, get_streams_callback]
        rw [this, h]

/-- Over any event sequence, no drain timer is created when the field
already holds a timer, and at most one is created when it is empty. -/
theorem run_timer_bound :
    ∀ (evs : List RecEvent) (s : RecState),
      (s.delayedTerminate.isSome = true → timerCreations (run s evs).2 = 0) ∧
      (s.delayedTerminate = none → timerCreations (run s evs).2 ≤ 1) := by
  intro evs
  induction evs with
  | nil => intro s; simp [run, timerCreations]
  | cons ev evs ih =>
    intro s
    have hsplit : timerCreations (run s (ev :: evs)).2 =
        timerCreations (step s ev).2 + timerCreations (run (step s ev).1 evs).2 := by
      simp [run, timerCreations, List.filter_append]
    constructor
    · intro h
      rcases (step_timer s ev).1 h with ⟨hsome, hz⟩
      rw [hsplit, hz, (ih (step s ev).1).1 hsome]
    · intro h
      rcases (step_timer s ev).2 h with ⟨hz, hkeep⟩ | ⟨hone, hsome⟩
      · rw [hsplit, hz]
        simpa using (ih (step s ev).1).2 hkeep
      · rw [hsplit, hone, (ih (step s ev).1).1 hsome]

/-- C10: over the whole lifetime of one recorder started with an empty
_delayed_terminate field, at most one drain timer is ever created, and
every delayed_terminate call made while the field holds a timer (even a
cancelled one, since the field is never reset) leaves the state
unchanged and starts nothing. -/
theorem c10_at_most_one_timer (s : RecState) (hs : s.delayedTerminate = none)
    (evs : List RecEvent) :
    timerCreations (run s evs).2 ≤ 1 ∧
    (∀ (s2 : RecState) (t : DrainTimer) (d : ℚ),
      s2.delayedTerminate = some t → delayed_terminate s2 d = (s2, [])) := by
  constructor
  · exact (run_timer_bound evs s).2 hs
  · intro s2 t d h
    simp [delayed_terminate, h]

/-- Witness for C10: a lifetime in which a resource error and then a
SIGINT both request delayed termination creates exactly one timer. -/
theorem c10_at_most_one_timer_witness :
    timerCreations (run ⟨some ⟨3, 42, GstState.playing⟩, none, true, 4⟩
      [RecEvent.busMessage ⟨MessageType.error, true, "pipewiresrc0", "vanished"⟩,
       RecEvent.sigint, RecEvent.timerFired]).2 ≤ 1 :=
  (c10_at_most_one_timer ⟨some ⟨3, 42, GstState.playing⟩, none, true, 4⟩ rfl
    [RecEvent.busMessage ⟨MessageType.error, true, "pipewiresrc0", "vanished"⟩,
     RecEvent.sigint, RecEvent.timerFired]).1

end PipewireScreencast
